import Mathlib

/-!
Shallow embedding of `src/payload_processor.py` (module-level constants and
the `PackerParser` methods), faithful to CPython 2 on the x86-64 platform the
node runs on: the `struct` format strings in `FORMAT` use *native* mode
(no `<`/`>`/`=` marker), so fields are padded to their natural alignment and
stored little-endian, and `struct.calcsize`/`struct.pack`/`struct.unpack` are
modelled accordingly.

Modelling conventions:
* bytes are `Nat` values `< 256`; byte strings are `List Nat`;
* IEEE-754 `float`/`double` fields are modelled by their bit patterns
  (`Nat < 2^32` / `Nat < 2^64`): `struct.pack`/`struct.unpack` move the bit
  pattern to/from the wire unchanged, so byte-level behaviour is exact;
* the float *arithmetic* in the telemetry step (`time_received - time_sent`
  and the division by it) is modelled at the value level through an exact
  IEEE-754 binary64 decoder `f64ToRat` (see `speedOf`);
* a raised-and-uncaught Python exception is the `error` field of the result
  record; ROS publishes are collected in lists.
-/

namespace ModemTools

/-- The Python exceptions that the embedded code can raise:
`KeyError` (dict lookup misses), `TypeError` (iterating a bound method),
`struct.error` (bad length or out-of-range field), `ZeroDivisionError`. -/
inductive PyErr where
  | keyError
  | typeError
  | structError
  | zeroDivisionError
deriving DecidableEq, Repr

/-- A `struct` format character actually used by `FORMAT`:
`'B'` (uint8), `'H'` (uint16), `'f'` (float32), `'d'` (float64). -/
inductive Fty where
  | B
  | H
  | F
  | D
deriving DecidableEq, Repr

/-- Byte width of a format character (`struct` standard sizes). -/
def fieldSize : Fty → Nat
  | Fty.B => 1
  | Fty.H => 2
  | Fty.F => 4
  | Fty.D => 8

/-- Exclusive upper bound accepted by `struct.pack` in native mode:
`'B'` and `'H'` raise `struct.error` outside `[0, 255]` / `[0, 65535]`;
`'f'`/`'d'` take any IEEE bit pattern of their width in this model. -/
def fieldMax : Fty → Nat
  | Fty.B => 256
  | Fty.H => 65536
  | Fty.F => 4294967296
  | Fty.D => 18446744073709551616

/-- Padding inserted before a field at offset `off` so that it starts at a
multiple of `a` (native-mode alignment; on x86-64 each of `B`,`H`,`f`,`d`
is aligned to its own size). -/
def alignPad (off a : Nat) : Nat := (a - off % a) % a

/-- Offset reached after packing the fields of `fmt` starting at `off`. -/
def calcsizeAux : Nat → List Fty → Nat
  | off, [] => off
  | off, c :: rest => calcsizeAux (off + alignPad off (fieldSize c) + fieldSize c) rest

/-- `struct.calcsize` for a native-mode format string. -/
def calcsize (fmt : List Fty) : Nat := calcsizeAux 0 fmt

/-- `n` little-endian bytes of the value `v` (the layout x86-64 native mode
stores multi-byte fields in). -/
def leBytes : Nat → Nat → List Nat
  | 0, _ => []
  | n + 1, v => v % 256 :: leBytes n (v / 256)

/-- Value of a little-endian byte string. -/
def fromLeBytes : List Nat → Nat
  | [] => 0
  | b :: rest => b + 256 * fromLeBytes rest

/-- `struct.pack` field loop: zero padding bytes to the field's alignment,
then the field little-endian; `struct.error` on an out-of-range integer
field or an argument-count mismatch. -/
def packAux : Nat → List Fty → List Nat → Except PyErr (List Nat)
  | _, [], [] => Except.ok []
  | off, c :: fmt, v :: vs =>
      if v < fieldMax c then
        (packAux (off + alignPad off (fieldSize c) + fieldSize c) fmt vs).map
          (fun rest => List.replicate (alignPad off (fieldSize c)) 0 ++ (leBytes (fieldSize c) v ++ rest))
      else Except.error PyErr.structError
  | _, [], _ :: _ => Except.error PyErr.structError
  | _, _ :: _, [] => Except.error PyErr.structError

/-- `struct.pack(fmt, *vs)` in native mode. -/
def pack (fmt : List Fty) (vs : List Nat) : Except PyErr (List Nat) := packAux 0 fmt vs

/-- The field of `bs` that native-mode `struct.unpack` reads at offset `off`. -/
def readField (bs : List Nat) (off : Nat) (c : Fty) : Nat :=
  fromLeBytes ((bs.drop (off + alignPad off (fieldSize c))).take (fieldSize c))

/-- `struct.unpack` field loop. -/
def unpackAux : List Nat → Nat → List Fty → List Nat
  | _, _, [] => []
  | bs, off, c :: fmt =>
      readField bs off c :: unpackAux bs (off + alignPad off (fieldSize c) + fieldSize c) fmt

/-- `struct.unpack(fmt, bs)`: `struct.error` unless `len(bs)` equals
`calcsize(fmt)` exactly. -/
def unpack (fmt : List Fty) (bs : List Nat) : Except PyErr (List Nat) :=
  if bs.length = calcsize fmt then Except.ok (unpackAux bs 0 fmt) else Except.error PyErr.structError

/-- `FORMAT['header'] = 'BHd'`: payload type, msg id, send time. -/
def FORMAT_header : List Fty := [Fty.B, Fty.H, Fty.D]

/-- `FORMAT['position_request'] = 'ffffff'`. -/
def FORMAT_position_request : List Fty := [Fty.F, Fty.F, Fty.F, Fty.F, Fty.F, Fty.F]

/-- `FORMAT['body_request'] = 'ffffff'`. -/
def FORMAT_body_request : List Fty := [Fty.F, Fty.F, Fty.F, Fty.F, Fty.F, Fty.F]

/-- `FORMAT['nav'] = 'ddffffff'`: latitude, longitude, then six float32. -/
def FORMAT_nav : List Fty := [Fty.D, Fty.D, Fty.F, Fty.F, Fty.F, Fty.F, Fty.F, Fty.F]

/-- `FORMAT['ack'] = 'H'`: the acknowledged msg id. -/
def FORMAT_ack : List Fty := [Fty.H]

/-- `MAX_MSG_LEN = 9000`. -/
def MAX_MSG_LEN : Nat := 9000

/-- `self.header_length = struct.calcsize(FORMAT['header'])`. -/
def header_length : Nat := calcsize FORMAT_header

/-- `TYPE_TO_ID`: user-friendly payload name to compact id. -/
def TYPE_TO_ID : String → Option Nat
  | "position_request" => some 1
  | "body_request" => some 2
  | "nav" => some 5
  | "string_image" => some 10
  | "ack" => some 32
  | "ros_message" => some 100
  | "ros_service" => some 101
  | _ => none

/-- `ID_TO_TYPE`: the inverse dictionary of `TYPE_TO_ID`. -/
def ID_TO_TYPE : Nat → Option String
  | 1 => some "position_request"
  | 2 => some "body_request"
  | 5 => some "nav"
  | 10 => some "string_image"
  | 32 => some "ack"
  | 100 => some "ros_message"
  | 101 => some "ros_service"
  | _ => none

/-- `REQUIRING_ACK`, the default `requiring_ack` configuration. -/
def REQUIRING_ACK : List String := ["position_request", "body_request"]

/-- The mutable counters of a `PackerParser` instance. -/
structure PackerState where
  msg_out_cnt : Nat
  msg_in_cnt : Nat
deriving DecidableEq, Repr

/-- Result of an outgoing-side handler: the updated counters, the payloads
published to the modem topic, and the uncaught exception if one was raised. -/
structure SendResult where
  state : PackerState
  sent : List (List Nat)
  error : Option PyErr
deriving DecidableEq, Repr

/-- `PackerParser.send_message`: pack the header with the current
`msg_out_cnt` and the current time, concatenate with the body, increment the
counter, publish. A `struct.error` while packing (e.g. `msg_out_cnt` above
65535) propagates before the counter is touched or anything is published. -/
def send_message (st : PackerState) (payload_type : String) (payload_body : List Nat)
    (time_now : Nat) : SendResult :=
  match TYPE_TO_ID payload_type with
  | none => { state := st, sent := [], error := some PyErr.keyError }
  | some tid =>
      match pack FORMAT_header [tid, st.msg_out_cnt, time_now] with
      | Except.error e => { state := st, sent := [], error := some e }
      | Except.ok header =>
          { state := { st with msg_out_cnt := st.msg_out_cnt + 1 },
            sent := [header ++ payload_body],
            error := none }

/-- `PackerParser.send_ack`: pack the acknowledged id and send it as an
`ack` message. -/
def send_ack (st : PackerState) (msg_id : Nat) (time_now : Nat) : SendResult :=
  match pack FORMAT_ack [msg_id] with
  | Except.error e => { state := st, sent := [], error := some e }
  | Except.ok body => send_message st "ack" body time_now

/-- `PackerParser.handle_string`: send the raw payload as `string_image`,
but only when `len(ros_msg.payload) < MAX_MSG_LEN`; otherwise the handler
silently returns without sending or reporting anything. -/
def handle_string (st : PackerState) (payload : List Nat) (time_now : Nat) : SendResult :=
  if payload.length < MAX_MSG_LEN then send_message st "string_image" payload time_now
  else { state := st, sent := [], error := none }

/-- The fields of an incoming `NavSts` ROS message that `handle_nav` reads:
`latitude`/`longitude` as float64 bit patterns, the rest as the float32 bit
patterns they are packed at. -/
structure NavSts where
  latitude : Nat
  longitude : Nat
  north : Nat
  east : Nat
  depth : Nat
  roll : Nat
  pitch : Nat
  yaw : Nat
deriving DecidableEq, Repr

/-- The `struct.pack(FORMAT['nav'], ...)` call of `PackerParser.handle_nav`,
with the argument list exactly as in the source: latitude, longitude, then
`position.north` three times (not north, east, depth), then roll, pitch, yaw. -/
def handle_nav_packed (m : NavSts) : Except PyErr (List Nat) :=
  pack FORMAT_nav [m.latitude, m.longitude, m.north, m.north, m.north, m.roll, m.pitch, m.yaw]

/-- `PackerParser.handle_nav`: pack the nav body and send it. -/
def handle_nav (st : PackerState) (m : NavSts) (time_now : Nat) : SendResult :=
  match handle_nav_packed m with
  | Except.error e => { state := st, sent := [], error := some e }
  | Except.ok body => send_message st "nav" body time_now

/-- Exact value of an IEEE-754 binary64 bit pattern: `none` for the
non-finite encodings (exponent field 2047: infinities and NaNs), otherwise
the represented rational, including signed zeros (both map to `some 0`) and
subnormals. -/
def f64ToRat (bits : Nat) : Option ℚ :=
  let sign : Nat := bits / 2 ^ 63 % 2
  let expo : Nat := bits / 2 ^ 52 % 2 ^ 11
  let frac : Nat := bits % 2 ^ 52
  if expo = 2047 then none
  else
    let m : Nat := if expo = 0 then frac else 2 ^ 52 + frac
    let e : Int := (if expo = 0 then 1 else (expo : Int)) - 1075
    let num : Nat := if 0 ≤ e then m * 2 ^ e.toNat else m
    let den : Nat := if 0 ≤ e then 1 else 2 ^ (-e).toNat
    let sgn : Int := if sign = 1 then -1 else 1
    some (Rat.divInt (sgn * (num : Int)) (den : Int))

/-- The telemetry expression `len(msg.payload) / (time_received - time_sent)`
on Python floats, given the two timestamps as binary64 bit patterns.
`ZeroDivisionError` is raised exactly when the float difference is a zero,
i.e. when both timestamps are finite and numerically equal (finite doubles
are integer multiples of `2^-1074`, so an unequal pair has a difference that
never rounds to zero; a NaN or infinite operand never yields a zero
difference). The quotient itself is never observed by later code (the
`TypeError` below pre-empts every use), so the exact rational stands in for
the rounded float, and `none` for a non-finite result. -/
def speedOf (len0 : Nat) (time_received time_sent : Nat) : Except PyErr (Option ℚ) :=
  match f64ToRat time_received, f64ToRat time_sent with
  | some r, some s =>
      if r = s then Except.error PyErr.zeroDivisionError
      else Except.ok (some ((len0 : ℚ) / (r - s)))
  | _, _ => Except.ok none

/-- Result of `PackerParser.handle_burst_msg`: updated counters, `NodeStatus`
records published to the status topic, decoded messages published by the
`parse_*` handlers, ids passed to `send_ack`, and the uncaught exception. -/
structure RecvResult where
  state : PackerState
  status_published : List (List Nat)
  dispatched : List (List Nat)
  acks : List Nat
  error : Option PyErr
deriving DecidableEq, Repr

/-- `PackerParser.handle_burst_msg`, step by step as in the source:
slice off `header_length` bytes, `struct.unpack` them (`struct.error` unless
exactly 16 bytes are available), look the type id up in `ID_TO_TYPE`
(`KeyError` if absent), increment `msg_in_cnt`, build the `info` dict whose
`speed` entry divides by `time_received - time_sent` (`ZeroDivisionError` on
zero transit), then evaluate
`[KeyValue(key, value) for key, value in info.items]`: `info.items` is the
bound dict method, not its result, and iterating it raises `TypeError`, so
`pub_status.publish`, the `self.parse` dispatch and the
`requiring_ack`/`send_ack` step are unreachable on every path. -/
def handle_burst_msg (st : PackerState) (payload : List Nat) (time_received : Nat) : RecvResult :=
  let header := payload.take header_length
  match unpack FORMAT_header header with
  | Except.error e =>
      { state := st, status_published := [], dispatched := [], acks := [], error := some e }
  | Except.ok header_values =>
      match ID_TO_TYPE (header_values.getD 0 0) with
      | none =>
          { state := st, status_published := [], dispatched := [], acks := [],
            error := some PyErr.keyError }
      | some _payload_type =>
          let time_sent := header_values.getD 2 0
          let st1 : PackerState := { st with msg_in_cnt := st.msg_in_cnt + 1 }
          match speedOf payload.length time_received time_sent with
          | Except.error e =>
              { state := st1, status_published := [], dispatched := [], acks := [],
                error := some e }
          | Except.ok _speed =>
              { state := st1, status_published := [], dispatched := [], acks := [],
                error := some PyErr.typeError }

/-- `n` consecutive `send_message` calls with the same type, body and clock
reading, threading the counter state. -/
def sendRun (ptype : String) (body : List Nat) (t : Nat) :
    Nat → PackerState → PackerState × List (List Nat)
  | 0, st => (st, [])
  | n + 1, st =>
      let r := send_message st ptype body t
      let rest := sendRun ptype body t n r.state
      (rest.1, r.sent ++ rest.2)

/-- The `message_id` field of a wire envelope, read back the way
`handle_burst_msg` reads it. -/
def envelopeMsgId (env : List Nat) : Option Nat :=
  match unpack FORMAT_header (env.take header_length) with
  | Except.ok vals => some (vals.getD 1 0)
  | Except.error _ => none

theorem leBytes_length (n v : Nat) : (leBytes n v).length = n := by
  induction n generalizing v with
  | zero => rfl
  | succ k ih => simp [leBytes, ih]

theorem fromLeBytes_leBytes (n v : Nat) : fromLeBytes (leBytes n v) = v % 2 ^ (8 * n) := by
  induction n generalizing v with
  | zero => simp [leBytes, fromLeBytes, Nat.mod_one]
  | succ k ih =>
      rw [leBytes, fromLeBytes, ih]
      rw [show 8 * (k + 1) = 8 + 8 * k by ring, pow_add]
      rw [show (2 : Nat) ^ 8 = 256 by norm_num]
      exact Nat.mod_mul.symm

theorem fieldMax_eq_pow (c : Fty) : fieldMax c = 2 ^ (8 * fieldSize c) := by
  cases c <;> rfl

/-- A field packed in range is read back exactly. -/
theorem readField_round (v : Nat) (c : Fty) (hv : v < fieldMax c) (off : Nat)
    (pre rest : List Nat) (hl : pre.length = off + alignPad off (fieldSize c)) :
    readField (pre ++ (leBytes (fieldSize c) v ++ rest)) off c = v := by
  rw [readField, List.drop_left' hl, List.take_left' (leBytes_length _ _), fromLeBytes_leBytes]
  exact Nat.mod_eq_of_lt (by rw [← fieldMax_eq_pow]; exact hv)

/-- Unpacking inverts packing, field loop version: if `packAux` at offset
`off` succeeded on `vs` and the buffer holds `off` leading bytes before its
output, `unpackAux` reads `vs` back and the buffer length is the calcsize. -/
theorem unpackAux_packAux (fmt : List Fty) :
    ∀ (off : Nat) (pre vs bs : List Nat), packAux off fmt vs = Except.ok bs →
      pre.length = off →
      unpackAux (pre ++ bs) off fmt = vs ∧ (pre ++ bs).length = calcsizeAux off fmt := by
  induction fmt with
  | nil =>
      intro off pre vs bs hp hl
      cases vs with
      | nil =>
          simp only [packAux] at hp
          cases hp
          simp [unpackAux, calcsizeAux, hl]
      | cons v vs =>
          simp only [packAux] at hp
          exact Except.noConfusion hp
  | cons c fmt ih =>
      intro off pre vs bs hp hl
      cases vs with
      | nil =>
          simp only [packAux] at hp
          exact Except.noConfusion hp
      | cons v vs =>
          simp only [packAux] at hp
          by_cases hv : v < fieldMax c
          · rw [if_pos hv] at hp
            cases hrec : packAux (off + alignPad off (fieldSize c) + fieldSize c) fmt vs with
            | error e => rw [hrec] at hp; exact Except.noConfusion hp
            | ok rest =>
                rw [hrec] at hp
                simp only [Except.map] at hp
                cases hp
                have hlen2 : (pre ++ List.replicate (alignPad off (fieldSize c)) 0).length
                    = off + alignPad off (fieldSize c) := by
                  simp [hl]
                have hlen3 : (pre ++ List.replicate (alignPad off (fieldSize c)) 0
                    ++ leBytes (fieldSize c) v).length
                    = off + alignPad off (fieldSize c) + fieldSize c := by
                  simp [hl, leBytes_length, Nat.add_assoc]
                have hrest := ih (off + alignPad off (fieldSize c) + fieldSize c)
                  (pre ++ List.replicate (alignPad off (fieldSize c)) 0 ++ leBytes (fieldSize c) v)
                  vs rest hrec hlen3
                have hfield : readField
                    (pre ++ (List.replicate (alignPad off (fieldSize c)) 0
                      ++ (leBytes (fieldSize c) v ++ rest))) off c = v := by
                  have := readField_round v c hv off
                    (pre ++ List.replicate (alignPad off (fieldSize c)) 0) rest hlen2
                  simpa [List.append_assoc] using this
                have htail : unpackAux
                    (pre ++ (List.replicate (alignPad off (fieldSize c)) 0
                      ++ (leBytes (fieldSize c) v ++ rest)))
                    (off + alignPad off (fieldSize c) + fieldSize c) fmt = vs := by
                  have := hrest.1
                  simpa [List.append_assoc] using this
                constructor
                · rw [unpackAux, hfield, htail]
                · have := hrest.2
                  rw [calcsizeAux]
                  simpa [List.append_assoc] using this
          · rw [if_neg hv] at hp
            exact Except.noConfusion hp

/-- Unpacking inverts packing: whenever `struct.pack(fmt, *vs)` succeeds,
`struct.unpack(fmt, ...)` of its output returns `vs`. -/
theorem unpack_pack (fmt : List Fty) (vs bs : List Nat) (h : pack fmt vs = Except.ok bs) :
    unpack fmt bs = Except.ok vs := by
  have h2 := unpackAux_packAux fmt 0 [] vs bs h rfl
  simp only [List.nil_append] at h2
  have h3 : bs.length = calcsize fmt := h2.2
  rw [unpack, if_pos h3]
  exact congrArg Except.ok h2.1

/-- Explicit layout of a packed header: `packAux` on `'BHd'` in native mode
emits the type byte, one padding byte, the id little-endian, four padding
bytes, then the time little-endian. -/
theorem pack_header_layout (t m s : Nat) (ht : t < 256) (hm : m < 65536)
    (hs : s < 18446744073709551616) :
    pack FORMAT_header [t, m, s] =
      Except.ok ([t] ++ [0] ++ leBytes 2 m ++ [0, 0, 0, 0] ++ leBytes 8 s) := by
  have h1 : leBytes 1 t = [t % 256] := rfl
  have r1 : List.replicate 1 (0 : Nat) = [0] := rfl
  have r4 : List.replicate 4 (0 : Nat) = [0, 0, 0, 0] := rfl
  simp [pack, packAux, FORMAT_header, fieldSize, fieldMax, alignPad, ht, hm, hs, h1, r1, r4,
    Nat.mod_eq_of_lt ht, Except.map]

/-- C1 — corrected. The encoded envelope header is 16 bytes, not 11: native
`struct` alignment inserts one padding byte after the 1-byte type id and four
after the 2-byte message id, with every multi-byte field little-endian; and
the fixed header length used to split received envelopes
(`struct.calcsize('BHd')`) equals this same 16-byte encoded size. -/
theorem C1_header_sixteen_bytes :
    header_length = 16 ∧
    ∀ t m s : Nat, t < 256 → m < 65536 → s < 2 ^ 64 →
      pack FORMAT_header [t, m, s] =
        Except.ok ([t] ++ [0] ++ leBytes 2 m ++ [0, 0, 0, 0] ++ leBytes 8 s) ∧
      ([t] ++ [0] ++ leBytes 2 m ++ [0, 0, 0, 0] ++ leBytes 8 s).length = header_length := by
  refine ⟨rfl, fun t m s ht hm hs => ⟨pack_header_layout t m s ht hm (by simpa using hs), ?_⟩⟩
  rw [show header_length = 16 from rfl]
  simp [leBytes_length]

/-- Witness for C1 at `(type_id, message_id, sent_at) = (5, 42, 0)`. -/
theorem C1_header_sixteen_bytes_witness :
    pack FORMAT_header [5, 42, 0] =
      Except.ok [5, 0, 42, 0, 0, 0, 0, 0, 0, 0, 0, 0, 0, 0, 0, 0] := by
  have h := (C1_header_sixteen_bytes.2 5 42 0 (by norm_num) (by norm_num) (by norm_num)).1
  exact h.trans (congrArg Except.ok (by rfl))

/-- Counterexample to C1 as stated: the encoded header of a concrete message
is 16 bytes long and the split length is 16, not 11. -/
theorem C1_eleven_byte_header_refuted :
    (pack FORMAT_header [5, 42, 4652007308841189376]).map List.length = Except.ok 16 ∧
    header_length = 16 ∧ ¬ header_length = 11 :=
  ⟨rfl, rfl, by decide⟩

/-- C2 — confirmed. For every `type_id < 256`, `message_id < 65536` and
`sent_at` float64 bit pattern, unpacking the header bytes produced by the
header encoder yields back exactly the encoded triple. -/
theorem C2_header_round_trip (t m s : Nat) (ht : t < 256) (hm : m < 65536)
    (hs : s < 2 ^ 64) :
    (pack FORMAT_header [t, m, s]).bind (unpack FORMAT_header) = Except.ok [t, m, s] := by
  have hbs := pack_header_layout t m s ht hm (by simpa using hs)
  rw [hbs]
  simpa using unpack_pack FORMAT_header [t, m, s] _ hbs

/-- Witness for C2 at `(5, 42, bits of 1000.0)`. -/
theorem C2_header_round_trip_witness :
    (pack FORMAT_header [5, 42, 4652007308841189376]).bind (unpack FORMAT_header) =
      Except.ok [5, 42, 4652007308841189376] :=
  C2_header_round_trip 5 42 4652007308841189376 (by norm_num) (by norm_num) (by norm_num)

deriving instance DecidableEq for Except

/-- `speedOf` can only raise `ZeroDivisionError`. -/
theorem speedOf_error_eq (len0 tr ts : Nat) (e : PyErr)
    (h : speedOf len0 tr ts = Except.error e) : e = PyErr.zeroDivisionError := by
  rw [speedOf] at h
  cases h1 : f64ToRat tr with
  | none => rw [h1] at h; cases h2 : f64ToRat ts <;> rw [h2] at h <;> exact Except.noConfusion h
  | some r =>
      rw [h1] at h
      cases h2 : f64ToRat ts with
      | none => rw [h2] at h; exact Except.noConfusion h
      | some s =>
          rw [h2] at h
          by_cases heq : r = s
          · simp [heq] at h
            exact h.symm
          · simp [heq] at h

/-- The three fields `struct.unpack('BHd', hdr)` reads from a 16-byte header:
the byte at offset 0, the two bytes at offset 2 and the eight bytes at
offset 8 (offsets 1 and 4..7 are alignment padding). -/
theorem unpack_header_fields (hdr : List Nat) (h : hdr.length = 16) :
    unpack FORMAT_header hdr =
      Except.ok [fromLeBytes (hdr.take 1), fromLeBytes ((hdr.drop 2).take 2),
        fromLeBytes ((hdr.drop 8).take 8)] := by
  have hc : hdr.length = calcsize FORMAT_header := by rw [h]; rfl
  rw [unpack, if_pos hc]
  simp [unpackAux, FORMAT_header, readField, fieldSize, alignPad]

/-- C3 — corrected. For every received envelope whose header decodes to a
registered type, `handle_burst_msg` raises `TypeError` while building the
status record (it iterates over the bound method object `info.items`),
except when the transit time is exactly zero, where the unguarded `speed`
division raises `ZeroDivisionError` first; and on every input whatsoever the
telemetry record is never published, no body is dispatched and no ack is
sent. -/
theorem C3_handler_always_raises :
    (∀ (st : PackerState) (payload : List Nat) (trec b mid sb : Nat),
        unpack FORMAT_header (payload.take header_length) = Except.ok [b, mid, sb] →
        (ID_TO_TYPE b).isSome →
        speedOf payload.length trec sb ≠ Except.error PyErr.zeroDivisionError →
        (handle_burst_msg st payload trec).error = some PyErr.typeError) ∧
    (∀ (st : PackerState) (payload : List Nat) (trec : Nat),
        (handle_burst_msg st payload trec).status_published = [] ∧
        (handle_burst_msg st payload trec).dispatched = [] ∧
        (handle_burst_msg st payload trec).acks = []) := by
  constructor
  · intro st payload trec b mid sb hu hid hne
    rw [handle_burst_msg, hu]
    simp only [List.getD_cons_zero, List.getD_cons_succ]
    cases hpt : ID_TO_TYPE b with
    | none => rw [hpt] at hid; exact Bool.noConfusion hid
    | some pt =>
        cases hsp : speedOf payload.length trec sb with
        | error e =>
            have he := speedOf_error_eq payload.length trec sb e hsp
            rw [he] at hsp
            exact absurd hsp hne
        | ok sp => simp [hsp]
  · intro st payload trec
    simp only [handle_burst_msg]
    split
    · exact ⟨rfl, rfl, rfl⟩
    · split
      · exact ⟨rfl, rfl, rfl⟩
      · split <;> exact ⟨rfl, rfl, rfl⟩

/-- Witness for C3: a nav envelope with `sent_at` = bits of 1000.0 received
at time bits of 2000.0 raises `TypeError`, and nothing is dispatched. -/
theorem C3_handler_always_raises_witness :
    (handle_burst_msg ⟨0, 0⟩ [5, 0, 3, 0, 0, 0, 0, 0, 0, 0, 0, 0, 0, 64, 143, 64]
        4656510908468559872).error = some PyErr.typeError ∧
    (handle_burst_msg ⟨0, 0⟩ [5, 0, 3, 0, 0, 0, 0, 0, 0, 0, 0, 0, 0, 64, 143, 64]
        4656510908468559872).acks = [] := by
  refine ⟨C3_handler_always_raises.1 ⟨0, 0⟩ _ _ 5 3 4652007308841189376 rfl (by decide)
    (by decide), (C3_handler_always_raises.2 ⟨0, 0⟩
      [5, 0, 3, 0, 0, 0, 0, 0, 0, 0, 0, 0, 0, 64, 143, 64] 4656510908468559872).2.2⟩

/-- Counterexample to C3 as stated: a registered-type envelope received with
zero transit time raises `ZeroDivisionError`, not `TypeError` (the `sent_at`
field and the receive time are both the bits of 256.0). -/
theorem C3_type_error_refuted :
    (handle_burst_msg ⟨0, 0⟩ [5, 0, 3, 0, 0, 0, 0, 0, 0, 0, 0, 0, 0, 0, 112, 64]
        4643211215818981376).error = some PyErr.zeroDivisionError ∧
    PyErr.zeroDivisionError ≠ PyErr.typeError := by
  exact ⟨by decide, by decide⟩

/-- C4 — corrected. An envelope whose (long enough) header carries an
unregistered type id makes `handle_burst_msg` raise an uncaught `KeyError`
at the `ID_TO_TYPE` lookup: nothing is dispatched, published or acked, and
the counters are left unchanged, so the failure does not alter how the next
envelope is handled. -/
theorem C4_unknown_type_raises_keyerror :
    ∀ (st : PackerState) (b : Nat) (rest : List Nat) (trec : Nat),
      16 ≤ (b :: rest).length → ID_TO_TYPE b = none →
      handle_burst_msg st (b :: rest) trec =
        { state := st, status_published := [], dispatched := [], acks := [],
          error := some PyErr.keyError } := by
  intro st b rest trec hlen hid
  have h16 : ((b :: rest).take header_length).length = 16 := by
    rw [List.length_take, show header_length = 16 from rfl]
    omega
  have hv := unpack_header_fields ((b :: rest).take header_length) h16
  have hb : ((b :: rest).take header_length).take 1 = [b] := rfl
  rw [hb] at hv
  have hfb : fromLeBytes [b] = b := by simp [fromLeBytes]
  rw [hfb] at hv
  rw [handle_burst_msg, hv]
  simp only [List.getD_cons_zero]
  rw [hid]

/-- Witness for C4: a 16-byte envelope with unregistered type id 3. -/
theorem C4_unknown_type_raises_keyerror_witness :
    handle_burst_msg ⟨0, 0⟩ (3 :: List.replicate 15 0) 0 =
      { state := ⟨0, 0⟩, status_published := [], dispatched := [], acks := [],
        error := some PyErr.keyError } :=
  C4_unknown_type_raises_keyerror ⟨0, 0⟩ 3 (List.replicate 15 0) 0 (by decide) (by decide)

/-- Counterexample to C4 as stated: an unregistered type id does raise
(`KeyError`), instead of being discarded with processing continuing. -/
theorem C4_no_raise_refuted :
    (handle_burst_msg ⟨0, 0⟩ (3 :: List.replicate 15 0) 0).error = some PyErr.keyError ∧
    some PyErr.keyError ≠ (none : Option PyErr) := by
  exact ⟨by decide, by decide⟩

/-- C5 — corrected. Any received byte sequence shorter than the fixed header
length (16 bytes, not 11) makes the header `struct.unpack` raise an uncaught
`struct.error` (the code has no `HeaderTooShort`): no body dispatch occurs,
nothing is published or acked, and the counters are unchanged, so subsequent
envelopes are unaffected. -/
theorem C5_short_envelope_struct_error :
    ∀ (st : PackerState) (payload : List Nat) (trec : Nat),
      payload.length < header_length →
      handle_burst_msg st payload trec =
        { state := st, status_published := [], dispatched := [], acks := [],
          error := some PyErr.structError } := by
  intro st payload trec hlen
  have htp : payload.take header_length = payload :=
    List.take_of_length_le (le_of_lt hlen)
  have hu : unpack FORMAT_header (payload.take header_length) =
      Except.error PyErr.structError := by
    rw [unpack, if_neg]
    rw [htp, show calcsize FORMAT_header = 16 from rfl]
    rw [show header_length = 16 from rfl] at hlen
    omega
  rw [handle_burst_msg, hu]

/-- Witness for C5 at the spec's example: a 5-byte envelope. -/
theorem C5_short_envelope_struct_error_witness :
    handle_burst_msg ⟨0, 0⟩ (List.replicate 5 0) 0 =
      { state := ⟨0, 0⟩, status_published := [], dispatched := [], acks := [],
        error := some PyErr.structError } :=
  C5_short_envelope_struct_error ⟨0, 0⟩ (List.replicate 5 0) 0 (by decide)

/-- Counterexample to C5 as stated: a 12-byte envelope — longer than the
claimed 11-byte header, so by the claim its header split should succeed —
still fails header decoding with `struct.error`. -/
theorem C5_eleven_byte_threshold_refuted :
    handle_burst_msg ⟨0, 0⟩ (List.replicate 12 0) 0 =
      { state := ⟨0, 0⟩, status_published := [], dispatched := [], acks := [],
        error := some PyErr.structError } ∧ 11 ≤ 12 := by
  exact ⟨by decide, by decide⟩

/-- C6 — the nav encoder bug evaluated: `handle_nav` packs `position.north`
into the east and depth slots, so decoding a nav body built from a fix with
latitude 55.0, longitude -3.0, north 10.0, east 20.0, depth 5.0, roll 0.5,
pitch 1.5, yaw 2.5 (as IEEE bit patterns) returns north's bits in the east
and depth positions, not the east and depth that the fix contained. -/
theorem C6_nav_east_depth_overwritten :
    (handle_nav_packed
        { latitude := 4632937379169042432, longitude := 13837309855095848960,
          north := 1092616192, east := 1101004800, depth := 1084227584,
          roll := 1056964608, pitch := 1069547520, yaw := 1075838976 }).bind
      (unpack FORMAT_nav) =
      Except.ok [4632937379169042432, 13837309855095848960, 1092616192, 1092616192,
        1092616192, 1056964608, 1069547520, 1075838976] ∧
    (1092616192 : Nat) ≠ 1101004800 ∧ (1092616192 : Nat) ≠ 1084227584 := by
  exact ⟨rfl, by decide, by decide⟩

/-- C7 — the ack policy evaluated: `position_request` is in `REQUIRING_ACK`,
yet receiving a well-formed 40-byte position_request envelope sends zero
acks, because the `TypeError` from iterating `info.items` aborts
`handle_burst_msg` before the dispatch and ack steps. -/
theorem C7_ack_never_sent :
    "position_request" ∈ REQUIRING_ACK ∧
    (handle_burst_msg ⟨0, 0⟩
        ([1, 0, 7, 0, 0, 0, 0, 0, 0, 0, 0, 0, 0, 64, 143, 64] ++ List.replicate 24 0)
        4656510908468559872).acks = [] ∧
    (handle_burst_msg ⟨0, 0⟩
        ([1, 0, 7, 0, 0, 0, 0, 0, 0, 0, 0, 0, 0, 64, 143, 64] ++ List.replicate 24 0)
        4656510908468559872).error = some PyErr.typeError := by
  exact ⟨by decide, by decide, by decide⟩

/-- A successful `send_message`: if the type resolves, the counter fits in
16 bits and the clock bits fit in 64, exactly one envelope is published —
the 16-byte header carrying the current counter value followed by the body —
and the counter is incremented exactly once. -/
theorem send_message_ok (st : PackerState) (ptype : String) (tid : Nat) (body : List Nat)
    (t : Nat) (hid : TYPE_TO_ID ptype = some tid) (htid : tid < 256)
    (hcnt : st.msg_out_cnt < 65536) (ht : t < 2 ^ 64) :
    send_message st ptype body t =
      { state := { msg_out_cnt := st.msg_out_cnt + 1, msg_in_cnt := st.msg_in_cnt },
        sent := [([tid] ++ [0] ++ leBytes 2 st.msg_out_cnt ++ [0, 0, 0, 0] ++ leBytes 8 t)
          ++ body],
        error := none } := by
  simp only [send_message, hid]
  rw [pack_header_layout tid st.msg_out_cnt t htid hcnt (by simpa using ht)]

/-- A failing `send_message`: once the counter exceeds 65535, `struct.pack`
raises before the counter is touched or anything is published — the id does
not wrap. -/
theorem send_message_overflow (st : PackerState) (ptype : String) (tid : Nat)
    (body : List Nat) (t : Nat) (hid : TYPE_TO_ID ptype = some tid)
    (hcnt : 65535 < st.msg_out_cnt) :
    send_message st ptype body t =
      { state := st, sent := [], error := some PyErr.structError } := by
  have hp : pack FORMAT_header [tid, st.msg_out_cnt, t] = Except.error PyErr.structError := by
    by_cases h1 : tid < fieldMax Fty.B
    · simp only [pack, packAux, FORMAT_header, if_pos h1]
      have h2 : ¬ st.msg_out_cnt < fieldMax Fty.H := by
        simp only [fieldMax]
        omega
      simp only [packAux, if_neg h2, Except.map]
    · simp only [pack, packAux, FORMAT_header, if_neg h1]
  simp only [send_message, hid]
  rw [hp]

/-- The message id a receiver reads back from an envelope built by
`send_message`. -/
theorem envelopeMsgId_of_header (tid mid t : Nat) (body : List Nat) (htid : tid < 256)
    (hm : mid < 65536) (ht : t < 2 ^ 64) :
    envelopeMsgId (([tid] ++ [0] ++ leBytes 2 mid ++ [0, 0, 0, 0] ++ leBytes 8 t) ++ body)
      = some mid := by
  have hlen : ([tid] ++ [0] ++ leBytes 2 mid ++ [0, 0, 0, 0] ++ leBytes 8 t).length
      = header_length := by
    simp [leBytes_length]
    rfl
  rw [envelopeMsgId, List.take_left' hlen,
    unpack_pack FORMAT_header [tid, mid, t] _
      (pack_header_layout tid mid t htid hm (by simpa using ht))]
  rfl

/-- C8 — corrected. While the outgoing counter stays within 16 bits, `n`
consecutive successful sends emit envelopes whose message ids are the
strictly increasing run `msg_out_cnt, msg_out_cnt+1, ...`, the counter being
incremented exactly once per send; but there is no 16-bit wraparound: as
soon as the counter exceeds 65535, every send raises `struct.error` from
`struct.pack('H', ...)`, publishing nothing and mutating nothing. -/
theorem C8_monotonic_ids_no_wraparound :
    (∀ (st : PackerState) (ptype : String) (tid : Nat) (body : List Nat) (t n : Nat),
        TYPE_TO_ID ptype = some tid → tid < 256 → t < 2 ^ 64 →
        st.msg_out_cnt + n ≤ 65536 →
        (sendRun ptype body t n st).1 =
          { msg_out_cnt := st.msg_out_cnt + n, msg_in_cnt := st.msg_in_cnt } ∧
        (sendRun ptype body t n st).2.map envelopeMsgId =
          (List.range' st.msg_out_cnt n).map some ∧
        List.Pairwise (· < ·) (List.range' st.msg_out_cnt n)) ∧
    (∀ (st : PackerState) (ptype : String) (tid : Nat) (body : List Nat) (t : Nat),
        TYPE_TO_ID ptype = some tid → 65535 < st.msg_out_cnt →
        send_message st ptype body t =
          { state := st, sent := [], error := some PyErr.structError }) := by
  constructor
  · intro st ptype tid body t n hid htid ht
    induction n generalizing st with
    | zero =>
        intro hcnt
        exact ⟨by simp [sendRun], by simp [sendRun], List.pairwise_lt_range' st.msg_out_cnt 0⟩
    | succ k ih =>
        intro hcnt
        have hlt : st.msg_out_cnt < 65536 := by omega
        have hsend := send_message_ok st ptype tid body t hid htid hlt ht
        have hstep : sendRun ptype body t (k + 1) st =
            ((sendRun ptype body t k (send_message st ptype body t).state).1,
              (send_message st ptype body t).sent ++
                (sendRun ptype body t k (send_message st ptype body t).state).2) := rfl
        have hrest := ih { msg_out_cnt := st.msg_out_cnt + 1, msg_in_cnt := st.msg_in_cnt }
          (by simpa using (by omega : st.msg_out_cnt + 1 + k ≤ 65536))
        refine ⟨?_, ?_, List.pairwise_lt_range' st.msg_out_cnt (k + 1)⟩
        · have e1 : st.msg_out_cnt + (k + 1) = st.msg_out_cnt + 1 + k := by omega
          rw [hstep, hsend, e1]
          exact hrest.1
        · rw [hstep, hsend, List.range'_succ]
          have hm := envelopeMsgId_of_header tid st.msg_out_cnt t body htid hlt ht
          have h2 := hrest.2.1
          simp only [List.map_append, List.map_cons, List.map_nil, List.singleton_append,
            List.cons_append, List.nil_append, List.append_assoc] at hm h2 ⊢
          rw [hm, h2]
  · intro st ptype tid body t hid hcnt
    exact send_message_overflow st ptype tid body t hid hcnt

/-- Witness for C8: three sends from a fresh counter emit ids 0, 1, 2. -/
theorem C8_monotonic_ids_no_wraparound_witness :
    (sendRun "nav" [] 0 3 ⟨0, 0⟩).1 = ⟨3, 0⟩ ∧
    (sendRun "nav" [] 0 3 ⟨0, 0⟩).2.map envelopeMsgId = [some 0, some 1, some 2] := by
  have h := C8_monotonic_ids_no_wraparound.1 ⟨0, 0⟩ "nav" 5 [] 0 3 (by decide) (by decide)
    (by decide) (by decide)
  exact ⟨h.1, h.2.1.trans (by rfl)⟩

/-- Counterexample to C8 as stated: at counter value 65536 a send does not
wrap the id to `65536 % 2^16 = 0` — it raises `struct.error`, publishes
nothing and leaves the counter unchanged. -/
theorem C8_wraparound_refuted :
    send_message ⟨65536, 0⟩ "nav" [] 0 =
      { state := ⟨65536, 0⟩, sent := [], error := some PyErr.structError } ∧
    65536 % 2 ^ 16 = 0 := by
  exact ⟨by decide, by decide⟩

/-- C9 — corrected. The throughput division is not guarded: whenever the
decoded `sent_at` and the receive clock are finite floats with equal values
(zero transit), `handle_burst_msg` raises an uncaught `ZeroDivisionError`
after incrementing the incoming counter; nothing is reported as undefined,
nothing is published, dispatched or acked. -/
theorem C9_zero_transit_division_raises :
    ∀ (st : PackerState) (payload : List Nat) (trec b mid sb : Nat) (q : ℚ),
      unpack FORMAT_header (payload.take header_length) = Except.ok [b, mid, sb] →
      (ID_TO_TYPE b).isSome →
      f64ToRat trec = some q → f64ToRat sb = some q →
      handle_burst_msg st payload trec =
        { state := { msg_out_cnt := st.msg_out_cnt, msg_in_cnt := st.msg_in_cnt + 1 },
          status_published := [], dispatched := [], acks := [],
          error := some PyErr.zeroDivisionError } := by
  intro st payload trec b mid sb q hu hid h1 h2
  rw [handle_burst_msg, hu]
  simp only [List.getD_cons_zero, List.getD_cons_succ]
  cases hpt : ID_TO_TYPE b with
  | none => rw [hpt] at hid; exact Bool.noConfusion hid
  | some pt =>
      have hsp : speedOf payload.length trec sb = Except.error PyErr.zeroDivisionError := by
        simp [speedOf, h1, h2]
      simp [hsp]

/-- Witness for C9: a position_request envelope sent and received at the
bits of 1000.0. -/
theorem C9_zero_transit_division_raises_witness :
    handle_burst_msg ⟨0, 0⟩ [1, 0, 7, 0, 0, 0, 0, 0, 0, 0, 0, 0, 0, 64, 143, 64]
        4652007308841189376 =
      { state := ⟨0, 1⟩, status_published := [], dispatched := [], acks := [],
        error := some PyErr.zeroDivisionError } :=
  C9_zero_transit_division_raises ⟨0, 0⟩ _ _ 1 7 4652007308841189376 1000 rfl (by decide)
    (by decide) (by decide)

/-- Counterexample to C9 as stated: a body_request envelope with zero transit
(both clocks at the bits of 256.0) makes the pipeline raise — the anomaly is
an uncaught exception, not a non-fatal undefined-throughput report. -/
theorem C9_division_guard_refuted :
    (handle_burst_msg ⟨0, 0⟩ [2, 0, 9, 0, 0, 0, 0, 0, 0, 0, 0, 0, 0, 0, 112, 64]
        4643211215818981376).error = some PyErr.zeroDivisionError ∧
    some PyErr.zeroDivisionError ≠ (none : Option PyErr) := by
  exact ⟨by decide, by decide⟩

/-- C10 — corrected. Only the `string_image` path is length-checked, and the
check compares the body alone against `MAX_MSG_LEN`: a body of at least 9000
bytes is silently dropped (nothing sent, no error reported to the caller),
while any shorter body is sent even though the envelope published is the
16-byte header plus the body, which can exceed 9000 bytes. -/
theorem C10_string_size_check_body_only :
    ∀ (st : PackerState) (t : Nat) (payload : List Nat),
      (MAX_MSG_LEN ≤ payload.length →
        handle_string st payload t = { state := st, sent := [], error := none }) ∧
      (payload.length < MAX_MSG_LEN → st.msg_out_cnt < 65536 → t < 2 ^ 64 →
        handle_string st payload t =
          { state := { msg_out_cnt := st.msg_out_cnt + 1, msg_in_cnt := st.msg_in_cnt },
            sent := [([10] ++ [0] ++ leBytes 2 st.msg_out_cnt ++ [0, 0, 0, 0] ++ leBytes 8 t)
              ++ payload],
            error := none } ∧
        (([10] ++ [0] ++ leBytes 2 st.msg_out_cnt ++ [0, 0, 0, 0] ++ leBytes 8 t)
            ++ payload).length = header_length + payload.length) := by
  intro st t payload
  constructor
  · intro h
    rw [handle_string, if_neg (not_lt.mpr h)]
  · intro h hc htb
    refine ⟨?_, ?_⟩
    · rw [handle_string, if_pos h]
      exact send_message_ok st "string_image" 10 payload t (by decide) (by norm_num) hc htb
    · rw [show header_length = 16 from rfl]
      simp [leBytes_length]
      omega

/-- Witness for C10: a 9000-byte body is silently dropped; a 3-byte body is
sent inside a 19-byte envelope. -/
theorem C10_string_size_check_body_only_witness :
    handle_string ⟨0, 0⟩ (List.replicate 9000 0) 0 =
      { state := ⟨0, 0⟩, sent := [], error := none } ∧
    handle_string ⟨0, 0⟩ [7, 7, 7] 0 =
      { state := ⟨1, 0⟩,
        sent := [[10, 0, 0, 0, 0, 0, 0, 0, 0, 0, 0, 0, 0, 0, 0, 0, 7, 7, 7]],
        error := none } := by
  refine ⟨(C10_string_size_check_body_only ⟨0, 0⟩ 0 (List.replicate 9000 0)).1
    (by rw [List.length_replicate]; exact Nat.le.refl), ?_⟩
  have h := ((C10_string_size_check_body_only ⟨0, 0⟩ 0 [7, 7, 7]).2 (by decide) (by decide)
    (by decide)).1
  exact h.trans (by rfl)

/-- Counterexample to C10 as stated: an 8995-byte string body is accepted and
published as a 9011-byte envelope — beyond the 9000-byte maximum — with no
error; and a 9000-byte body is dropped with no `EnvelopeTooLarge` reported
(no error at all). -/
theorem C10_oversize_envelope_sent :
    (handle_string ⟨0, 0⟩ (List.replicate 8995 0) 0).error = none ∧
    (handle_string ⟨0, 0⟩ (List.replicate 8995 0) 0).sent.map List.length = [9011] ∧
    MAX_MSG_LEN < 9011 ∧
    (handle_string ⟨0, 0⟩ (List.replicate 9000 7) 0).sent = [] ∧
    (handle_string ⟨0, 0⟩ (List.replicate 9000 7) 0).error = none := by
  have hlen1 : (List.replicate 8995 (0 : Nat)).length < MAX_MSG_LEN := by
    rw [List.length_replicate]
    norm_num [MAX_MSG_LEN]
  have h1 : handle_string ⟨0, 0⟩ (List.replicate 8995 0) 0 =
      { state := ⟨1, 0⟩,
        sent := [([10] ++ [0] ++ leBytes 2 0 ++ [0, 0, 0, 0] ++ leBytes 8 0)
          ++ List.replicate 8995 0],
        error := none } := by
    rw [handle_string, if_pos hlen1]
    exact send_message_ok ⟨0, 0⟩ "string_image" 10 (List.replicate 8995 0) 0 (by decide)
      (by norm_num) (by norm_num) (by norm_num)
  have h2 : handle_string ⟨0, 0⟩ (List.replicate 9000 7) 0 =
      { state := ⟨0, 0⟩, sent := [], error := none } := by
    rw [handle_string, if_neg]
    rw [List.length_replicate]
    norm_num [MAX_MSG_LEN]
  refine ⟨by rw [h1], ?_, by decide, by rw [h2], by rw [h2]⟩
  rw [h1]
  simp only [List.map_cons, List.map_nil, List.length_append, List.length_replicate,
    leBytes_length, List.length_cons, List.length_nil, List.cons.injEq, and_true]

end ModemTools
